import Mathlib

/-!
Shallow embedding of the vSphere machinery module (modules/machinery/vsphere.py)
of this repository: the task-polling waiter, snapshot-tree and inventory
traversals, the snapshot lifecycle operations, and the memory-dump download
pipeline, together with theorems checking the documented behaviour.

Machine integers do not occur; managed-object references are modelled as
numeric ids, byte streams as lists of naturals, and host interactions
(task outcomes, HTTP responses) as explicit inputs to the embedded functions.
-/

namespace VSphereM

/-- Observable state of a host-side asynchronous task, `task.info.state` in the
source.  The source treats every state other than `error` and `success`
uniformly, so they are collapsed into `running`. -/
inductive TaskState
| running
| success
| error
deriving DecidableEq

/-- Failure kinds of the embedded operations.  `notFound`, `taskFailed` and
`downloadFailed` model `CuckooMachineError` with the corresponding message;
`pyAttributeError` models an uncaught Python `AttributeError`, which is not a
`CuckooMachineError`. -/
inductive VError
| notFound (msg : String)
| taskFailed (msg : String)
| downloadFailed (msg : String)
| pyAttributeError
deriving DecidableEq

/-- Whether a failure is surfaced as a `CuckooMachineError` (as opposed to an
uncaught generic Python exception). -/
def isCuckooMachineError : VError → Bool
  | VError.pyAttributeError => false
  | _ => true

/-- Result of `_wait_task`. -/
inductive WaitOutcome
| completed
| taskError
| timedOut
deriving DecidableEq

/-- The `_wait_task` polling loop from poll index `i` on.  `stateAt j` is the
task state observed by the poll at index `j`; the loop sleeps one second
between polls, so the elapsed wall-clock time at poll `j` is `j` seconds, and
`limit` is `cfg.timeouts.vm_state` in seconds.  The check order follows the
source exactly: task error first, then success, then the deadline
(`datetime.utcnow() - start > limit`).  The returned index is the poll at
which the loop terminated. -/
def wait_task_from (stateAt : Nat → TaskState) (limit : Nat) (i : Nat) :
    WaitOutcome × Nat :=
  match stateAt i with
  | TaskState.error => (WaitOutcome.taskError, i)
  | TaskState.success => (WaitOutcome.completed, i)
  | TaskState.running =>
      if limit < i then (WaitOutcome.timedOut, i)
      else wait_task_from stateAt limit (i + 1)
termination_by limit + 1 - i
decreasing_by omega

/-- The `_wait_task` loop, started at poll index 0 (elapsed time 0). -/
def wait_task (stateAt : Nat → TaskState) (limit : Nat) : WaitOutcome × Nat :=
  wait_task_from stateAt limit 0

/-- Node of a per-machine snapshot tree (`VirtualMachineSnapshotTree`): a
snapshot name, the managed-object reference of the snapshot (modelled as a
numeric id), the power state the machine was in when the snapshot was taken,
and the ordered child list. -/
inductive SnapshotNode
| mk (name : String) (snapshot : Nat) (state : String)
     (childSnapshotList : List SnapshotNode)

/-- Name of a snapshot-tree node. -/
def SnapshotNode.name : SnapshotNode → String
  | SnapshotNode.mk n _ _ _ => n

/-- Managed-object reference id of a snapshot-tree node. -/
def SnapshotNode.snapshot : SnapshotNode → Nat
  | SnapshotNode.mk _ r _ _ => r

/-- Capture-time power state of a snapshot-tree node. -/
def SnapshotNode.state : SnapshotNode → String
  | SnapshotNode.mk _ _ s _ => s

/-- Children of a snapshot-tree node. -/
def SnapshotNode.childSnapshotList : SnapshotNode → List SnapshotNode
  | SnapshotNode.mk _ _ _ c => c

/-- The `_traverseSnapshots` generator: for each node of the forest, first the
traversal of its children when it has any, then the node itself, then the
remaining siblings.  The `0 < length` guard mirrors the source's
`if len(node.childSnapshotList) > 0`. -/
def traverseSnapshots : List SnapshotNode → List SnapshotNode
  | [] => []
  | SnapshotNode.mk n r s children :: rest =>
      (if 0 < children.length then traverseSnapshots children else []) ++
        (SnapshotNode.mk n r s children :: traverseSnapshots rest)

/-- Emission order as the specification words it: depth-first, each node's
children emitted before the node itself, roots in host-reported order.
This is the comparison point for the traversal's documented order. -/
def postOrderForest : List SnapshotNode → List SnapshotNode
  | [] => []
  | SnapshotNode.mk n r s children :: rest =>
      postOrderForest children ++
        (SnapshotNode.mk n r s children :: postOrderForest rest)

/-- The `_get_snapshot_by_name` lookup: the first node in traversal order whose
name equals the query, projected to its snapshot reference; `none` when no node
matches.  The argument is `vm.snapshot.rootSnapshotList`. -/
def get_snapshot_by_name (rootSnapshotList : List SnapshotNode)
    (name : String) : Option Nat :=
  ((traverseSnapshots rootSnapshotList).find?
    (fun ss => ss.name == name)).map (fun ss => ss.snapshot)

/-- The `_get_snapshot_power_state` lookup: the first node in traversal order
whose name equals the query, projected to its capture-time power state. -/
def get_snapshot_power_state (rootSnapshotList : List SnapshotNode)
    (name : String) : Option String :=
  ((traverseSnapshots rootSnapshotList).find?
    (fun ss => ss.name == name)).map (fun ss => ss.state)

/-- The `_revert_snapshot` operation.  The host-side outcome the wait would
observe is an explicit input; the boolean records whether a
`RevertToSnapshot_Task` request was issued (and hence whether a task wait
occurred).  When the named snapshot is absent the source raises a
`CuckooMachineError` naming the missing snapshot before any task is created;
when present, a `CuckooMachineError` from `_wait_task` is wrapped and
re-raised. -/
def revert_snapshot (rootSnapshotList : List SnapshotNode)
    (name vmname : String) (wait : WaitOutcome) :
    Except VError Unit × Bool :=
  match get_snapshot_by_name rootSnapshotList name with
  | some _ =>
      match wait with
      | WaitOutcome.completed => (Except.ok (), true)
      | WaitOutcome.taskError =>
          (Except.error (VError.taskFailed ("RevertToSnapshot: " ++ "Task error")),
           true)
      | WaitOutcome.timedOut =>
          (Except.error
            (VError.taskFailed ("RevertToSnapshot: " ++ "Task timed out")), true)
  | none =>
      (Except.error (VError.notFound
        ("Snapshot " ++ name ++ " for machine " ++ vmname ++ " not found")),
       false)

/-- The `_delete_snapshot` operation.  When the named snapshot is present, a
`CuckooMachineError` raised by `_wait_task` for the `RemoveSnapshot_Task` is
caught and logged, so every wait outcome yields success; when the snapshot is
absent the source raises a `CuckooMachineError`. -/
def delete_snapshot (rootSnapshotList : List SnapshotNode)
    (name vmname : String) (wait : WaitOutcome) : Except VError Unit :=
  match get_snapshot_by_name rootSnapshotList name with
  | some _ =>
      match wait with
      | WaitOutcome.completed => Except.ok ()
      | WaitOutcome.taskError => Except.ok ()
      | WaitOutcome.timedOut => Except.ok ()
  | none =>
      Except.error (VError.notFound
        ("Snapshot " ++ name ++ " for machine " ++ vmname ++ " not found"))

/-- Node of a VM-folder hierarchy: folders (which have a `childEntity`
attribute in the source) and virtual-machine leaves carrying
`vm.summary.config.name`. -/
inductive VMFolderNode
| folder (childEntity : List VMFolderNode)
| vm (name : String)

/-- Node of the datacenter-folder hierarchy under `rootFolder`: named folders
(with `childEntity`) and datacenter leaves carrying their name and the
`childEntity` of their `vmFolder`. -/
inductive DCFolderNode
| folder (name : String) (childEntity : List DCFolderNode)
| datacenter (name : String) (vmFolder : List VMFolderNode)

/-- The inner `traverseDCFolders` generator of `_get_virtual_machines`: folders
recurse with the accumulated path extended by `node.name + "/"`; non-folder
nodes (datacenters) are yielded with path `path + node.name`. -/
def traverseDCFolders :
    List DCFolderNode → String → List (String × List VMFolderNode × String)
  | [], _ => []
  | DCFolderNode.folder fname children :: rest, path =>
      traverseDCFolders children (path ++ fname ++ "/") ++
        traverseDCFolders rest path
  | DCFolderNode.datacenter dname vmf :: rest, path =>
      (dname, vmf, path ++ dname) :: traverseDCFolders rest path

/-- The inner `traverseVMFolders` generator of `_get_virtual_machines`:
flattens a VM-folder hierarchy to its machine leaves, ignoring folder
structure. -/
def traverseVMFolders : List VMFolderNode → List String
  | [] => []
  | VMFolderNode.folder children :: rest =>
      traverseVMFolders children ++ traverseVMFolders rest
  | VMFolderNode.vm vname :: rest => vname :: traverseVMFolders rest

/-- The `_get_virtual_machines` generator: for every datacenter reached by
`traverseDCFolders` (from `conn.content.rootFolder.childEntity` with empty
initial path), every machine of its VM folder, paired with the datacenter path
recorded in `VMtoDC` at the moment the machine is yielded. -/
def get_virtual_machines (rootFolderChildEntity : List DCFolderNode) :
    List (String × String) :=
  (traverseDCFolders rootFolderChildEntity "").flatMap
    (fun dc => (traverseVMFolders dc.2.1).map (fun v => (v, dc.2.2)))

/-- The `_get_virtual_machine_by_label` lookup: first yielded machine whose
name equals the label (kept with its datacenter path). -/
def get_virtual_machine_by_label (rootFolderChildEntity : List DCFolderNode)
    (label : String) : Option (String × String) :=
  (get_virtual_machines rootFolderChildEntity).find? (fun vm => vm.1 == label)

/-- Datacenter leaves as the specification words them: each datacenter of the
forest together with its VM folder and the list of its ancestor folder names
(in traversal order, ending with the datacenter's own name). -/
def dcLeaves :
    List DCFolderNode → List String → List (String × List VMFolderNode × List String)
  | [], _ => []
  | DCFolderNode.folder fname children :: rest, anc =>
      dcLeaves children (anc ++ [fname]) ++ dcLeaves rest anc
  | DCFolderNode.datacenter dname vmf :: rest, anc =>
      (dname, vmf, anc ++ [dname]) :: dcLeaves rest anc

/-- Concatenation of ancestor names in traversal order, separated by `/`. -/
def ancPath : List String → String
  | [] => ""
  | [s] => s
  | s :: rest => s ++ "/" ++ ancPath rest

/-- The accumulated prefix the source threads through `traverseDCFolders`:
every ancestor name followed by a slash. -/
def joinSlash (l : List String) : String :=
  l.foldr (fun s acc => s ++ "/" ++ acc) ""

/-- Number of machine leaves in a VM-folder forest. -/
def vmLeafCount : List VMFolderNode → Nat
  | [] => 0
  | VMFolderNode.folder children :: rest =>
      vmLeafCount children + vmLeafCount rest
  | VMFolderNode.vm _ :: rest => vmLeafCount rest + 1

/-- Number of machine leaves in a whole datacenter-folder forest. -/
def dcVMLeafCount : List DCFolderNode → Nat
  | [] => 0
  | DCFolderNode.folder _ children :: rest =>
      dcVMLeafCount children + dcVMLeafCount rest
  | DCFolderNode.datacenter _ vmf :: rest =>
      vmLeafCount vmf + dcVMLeafCount rest

/-- The `stop` operation: resolve the machine by label; when found, power it
off via `_stop_virtual_machine`, which waits on `PowerOffVM_Task` and catches
and logs any `CuckooMachineError` from the wait; when not found, raise a
`CuckooMachineError`. -/
def stop (rootFolderChildEntity : List DCFolderNode) (label : String)
    (wait : WaitOutcome) : Except VError Unit :=
  match get_virtual_machine_by_label rootFolderChildEntity label with
  | some _ =>
      match wait with
      | WaitOutcome.completed => Except.ok ()
      | WaitOutcome.taskError => Except.ok ()
      | WaitOutcome.timedOut => Except.ok ()
  | none =>
      Except.error (VError.notFound ("Machine " ++ label ++ " not found on host"))

/-- Steps of the `dump_memory` pipeline body. -/
inductive DumpStep
| createSnap
| downloadSnap
| deleteSnap
deriving DecidableEq

/-- The `dump_memory` operation: resolve the machine by label, then run
`_create_snapshot`, `_download_snapshot`, `_delete_snapshot` in order, each
step's outcome being an explicit input; the first failing step's error
propagates and the following steps do not run.  The step list records the
steps that were attempted, in order. -/
def dump_memory (rootFolderChildEntity : List DCFolderNode) (label : String)
    (createR downloadR deleteR : Except VError Unit) :
    Except VError Unit × List DumpStep :=
  match get_virtual_machine_by_label rootFolderChildEntity label with
  | some _ =>
      match createR with
      | Except.error e => (Except.error e, [DumpStep.createSnap])
      | Except.ok _ =>
          match downloadR with
          | Except.error e =>
              (Except.error e, [DumpStep.createSnap, DumpStep.downloadSnap])
          | Except.ok _ =>
              match deleteR with
              | Except.error e =>
                  (Except.error e,
                   [DumpStep.createSnap, DumpStep.downloadSnap, DumpStep.deleteSnap])
              | Except.ok _ =>
                  (Except.ok (),
                   [DumpStep.createSnap, DumpStep.downloadSnap, DumpStep.deleteSnap])
  | none =>
      (Except.error (VError.notFound ("Machine " ++ label ++ " not found on host")),
       [])

/-- Entry of `vm.layoutEx.snapshot`: the snapshot's managed-object reference
and its memory and data file keys. -/
structure SnapshotLayoutEntry where
  key : Nat
  memoryKey : Int
  dataKey : Int

/-- Entry of `vm.layoutEx.file`: file key, file kind string (`f.type` in the
source), and file name (the datastore file specifier). -/
structure LayoutFile where
  key : Int
  ftype : String
  name : String

/-- The memory/data key lookup of `_download_snapshot`: the first layout entry
whose key equals the snapshot reference supplies both keys; when none does,
both stay `None`. -/
def find_snapshot_keys (layout : List SnapshotLayoutEntry) (snapref : Nat) :
    Option Int × Option Int :=
  match layout.find? (fun s => s.key == snapref) with
  | some s => (some s.memoryKey, some s.dataKey)
  | none => (none, none)

/-- Python falsiness of the `filespec` variable: it is falsy when still `None`
or when bound to the empty string. -/
def falsyStr : Option String → Bool
  | none => true
  | some s => s == ""

/-- The file-resolution step of `_download_snapshot`, exactly as the source
sequences it: the first file whose key equals the memory key and whose kind is
`snapshotMemory` or `suspendMemory`; if the resulting `filespec` is falsy, the
first file whose key equals the data key and whose kind is `snapshotData`
(leaving `filespec` unchanged when that search also fails); a
`CuckooMachineError` when the final `filespec` is falsy. -/
def resolve_filespec (files : List LayoutFile)
    (memorykey datakey : Option Int) : Except VError String :=
  let fs1 := (files.find? (fun f => memorykey == some f.key &&
      (f.ftype == "snapshotMemory" || f.ftype == "suspendMemory"))).map
      LayoutFile.name
  let fs2 :=
    if falsyStr fs1 then
      match (files.find? (fun f => datakey == some f.key &&
          f.ftype == "snapshotData")).map LayoutFile.name with
      | some n => some n
      | none => fs1
    else fs1
  if falsyStr fs2 then
    Except.error (VError.notFound "Could not find memory snapshot file")
  else Except.ok (fs2.getD "")

/-- A nonempty file name, as an optional value: the name when it is a usable
(truthy) string, `none` otherwise. -/
def usableName : Option String → Option String
  | none => none
  | some s => if s == "" then none else some s

/-- File resolution as the amended claim words it: the first matching
memory-kind file when its name is nonempty; otherwise the first matching
`snapshotData` file when its name is nonempty; otherwise the not-found
error. -/
def resolve_filespec_alt (files : List LayoutFile)
    (memorykey datakey : Option Int) : Except VError String :=
  match usableName ((files.find? (fun f => memorykey == some f.key &&
      (f.ftype == "snapshotMemory" || f.ftype == "suspendMemory"))).map
      LayoutFile.name) with
  | some s => Except.ok s
  | none =>
      match usableName ((files.find? (fun f => datakey == some f.key &&
          f.ftype == "snapshotData")).map LayoutFile.name) with
      | some s => Except.ok s
      | none =>
          Except.error (VError.notFound "Could not find memory snapshot file")

/-- The file-specifier parse of `_download_snapshot`:
`re.match(r"\[([^\]]*)\] (.*)", filespec)`.  The first group is everything
from an initial `[` up to the first `]`; a `]` followed by one space must
follow; the second group is the rest of the line (a dot does not match a
newline, and `re.match` only anchors at the start).  `none` when the pattern
does not match. -/
def parse_filespec (filespec : String) : Option (String × String) :=
  match filespec.data with
  | '[' :: rest =>
      match rest.dropWhile (fun c => c ≠ ']') with
      | ']' :: ' ' :: tail =>
          some (String.mk (rest.takeWhile (fun c => c ≠ ']')),
                String.mk (tail.takeWhile (fun c => c ≠ '\n')))
      | _ => none
  | _ => none

/-- The parse step as the source executes it: on a match, the two groups; on a
non-match, `re.match` returns `None` and the immediate `.groups()` call raises
`AttributeError`, which no handler in `_download_snapshot` catches. -/
def download_parse (filespec : String) : Except VError (String × String) :=
  match parse_filespec filespec with
  | some p => Except.ok p
  | none => Except.error VError.pyAttributeError

/-- An HTTP response to the datastore file request, as the download step
observes it: the status code, the body chunks `iter_content` delivers before
any transport failure, and whether a transport failure cuts the stream off
after those chunks. -/
structure HttpResponse where
  statusCode : Nat
  chunks : List (List Nat)
  transportFails : Bool

/-- The streaming tail of `_download_snapshot`: `response.raise_for_status()`
(raising for any 4xx or 5xx status) runs before `open(path, "wb")`, so on a
status error the destination keeps its prior content `dest`; otherwise the
destination is truncated and the delivered chunks are appended in order, with
a transport failure surfacing after the delivered chunks are written.  The
result pairs the operation outcome with the final destination content. -/
def download_stream (resp : HttpResponse) (dest : List Nat) :
    Except VError Unit × List Nat :=
  if 400 ≤ resp.statusCode ∧ resp.statusCode < 600 then
    (Except.error (VError.downloadFailed "Error downloading memory dump"), dest)
  else
    let written := resp.chunks.foldl (fun acc c => acc ++ c) []
    if resp.transportFails then
      (Except.error (VError.downloadFailed "Error downloading memory dump"),
       written)
    else (Except.ok (), written)

theorem wait_task_from_error (stateAt : Nat → TaskState) (limit i : Nat)
    (hs : stateAt i = TaskState.error) :
    wait_task_from stateAt limit i = (WaitOutcome.taskError, i) := by
  rw [wait_task_from.eq_def, hs]

theorem wait_task_from_success (stateAt : Nat → TaskState) (limit i : Nat)
    (hs : stateAt i = TaskState.success) :
    wait_task_from stateAt limit i = (WaitOutcome.completed, i) := by
  rw [wait_task_from.eq_def, hs]

theorem wait_task_from_timeout (stateAt : Nat → TaskState) (limit i : Nat)
    (hs : stateAt i = TaskState.running) (hi : limit < i) :
    wait_task_from stateAt limit i = (WaitOutcome.timedOut, i) := by
  rw [wait_task_from.eq_def, hs]
  simp [hi]

theorem wait_task_from_step (stateAt : Nat → TaskState) (limit i : Nat)
    (hs : stateAt i = TaskState.running) (hi : i ≤ limit) :
    wait_task_from stateAt limit i = wait_task_from stateAt limit (i + 1) := by
  rw [wait_task_from.eq_def, hs]
  simp [Nat.not_lt.mpr hi]

/-- Running the loop across a block of polls that all observe `running` and all
lie at or before the deadline advances the poll index without terminating. -/
theorem wait_task_from_run (stateAt : Nat → TaskState) (limit : Nat) :
    ∀ i k, i ≤ k → k ≤ limit + 1 →
    (∀ j, i ≤ j → j < k → stateAt j = TaskState.running) →
    wait_task_from stateAt limit i = wait_task_from stateAt limit k := by
  intro i k hik hk hrun
  rcases Nat.lt_or_ge i k with hlt | hge
  · have hsi : stateAt i = TaskState.running := hrun i (Nat.le_refl i) hlt
    have hstep := wait_task_from_step stateAt limit i hsi (by omega)
    rw [hstep]
    exact wait_task_from_run stateAt limit (i + 1) k (by omega) hk
      (fun j hj1 hj2 => hrun j (by omega) hj2)
  · have : i = k := by omega
    rw [this]
termination_by i k => k - i

/-- C1: the waiter polls the task state at a fixed one-second interval; a
`success` observed at poll `k` (all earlier polls observing `running`) makes
the wait return normally at that poll, so after `k` seconds of elapsed time; a
task that never leaves `running` makes the wait fail with the timeout error at
the first poll whose elapsed time exceeds the configured limit; and an `error`
observed at poll `k` makes the wait fail with the task error immediately at
that poll, even when `k = limit + 1`, i.e. even when the deadline has also
passed, because the source checks the error state before the deadline. -/
theorem wait_task_terminal_behavior (stateAt : Nat → TaskState)
    (limit k : Nat) :
    ((∀ j, j < k → stateAt j = TaskState.running) →
      stateAt k = TaskState.success → k ≤ limit + 1 →
      wait_task stateAt limit = (WaitOutcome.completed, k)) ∧
    ((∀ j, stateAt j = TaskState.running) →
      wait_task stateAt limit = (WaitOutcome.timedOut, limit + 1)) ∧
    ((∀ j, j < k → stateAt j = TaskState.running) →
      stateAt k = TaskState.error → k ≤ limit + 1 →
      wait_task stateAt limit = (WaitOutcome.taskError, k)) := by
  refine ⟨?_, ?_, ?_⟩
  · intro hrun hk hkle
    unfold wait_task
    rw [wait_task_from_run stateAt limit 0 k (Nat.zero_le k) hkle
      (fun j _ hj => hrun j hj)]
    exact wait_task_from_success stateAt limit k hk
  · intro hrun
    unfold wait_task
    rw [wait_task_from_run stateAt limit 0 (limit + 1) (Nat.zero_le _)
      (Nat.le_refl _) (fun j _ _ => hrun j)]
    exact wait_task_from_timeout stateAt limit (limit + 1) (hrun (limit + 1))
      (by omega)
  · intro hrun hk hkle
    unfold wait_task
    rw [wait_task_from_run stateAt limit 0 k (Nat.zero_le k) hkle
      (fun j _ hj => hrun j hj)]
    exact wait_task_from_error stateAt limit k hk

/-- Closed instances of the three branches of `wait_task_terminal_behavior`:
success at poll 2 under limit 5; a never-terminating task timing out at poll 6;
an error first observed at poll 6, after the deadline, still reported as a task
error. -/
theorem wait_task_terminal_behavior_witness :
    wait_task (fun i => if i < 2 then TaskState.running else TaskState.success)
      5 = (WaitOutcome.completed, 2) ∧
    wait_task (fun _ => TaskState.running) 5 = (WaitOutcome.timedOut, 6) ∧
    wait_task (fun i => if i < 6 then TaskState.running else TaskState.error)
      5 = (WaitOutcome.taskError, 6) := by
  refine ⟨?_, ?_, ?_⟩
  · exact (wait_task_terminal_behavior _ 5 2).1
      (fun j hj => by simp [hj]) (by norm_num) (by norm_num)
  · exact (wait_task_terminal_behavior (fun _ => TaskState.running) 5 0).2.1
      (fun _ => rfl)
  · exact (wait_task_terminal_behavior _ 5 6).2.2
      (fun j hj => by simp [hj]) (by norm_num) (by norm_num)

/-- The source traversal emits exactly the spec-side order: children first,
then the node, then the remaining siblings. -/
theorem traverseSnapshots_eq_postOrder :
    ∀ forest : List SnapshotNode,
      traverseSnapshots forest = postOrderForest forest
  | [] => by simp [traverseSnapshots, postOrderForest]
  | SnapshotNode.mk n r s children :: rest => by
      have ih1 := traverseSnapshots_eq_postOrder children
      have ih2 := traverseSnapshots_eq_postOrder rest
      cases children with
      | nil =>
          simp [traverseSnapshots, postOrderForest, ih2]
      | cons c cs =>
          simp [traverseSnapshots, postOrderForest, ih1, ih2]
termination_by forest => sizeOf forest

/-- C4: the snapshot-tree traversal emits nodes depth-first with each node's
children emitted before the node itself and roots in host-reported order;
`_get_snapshot_by_name` returns the first node of that emission order whose
name equals the query; on an empty forest the result is absent; and the result
is absent exactly when no emitted node carries the queried name (the lookup is
total, so it never raises). -/
theorem snapshot_walk_find_by_name (forest : List SnapshotNode)
    (nm : String) :
    traverseSnapshots forest = postOrderForest forest ∧
    get_snapshot_by_name forest nm =
      ((postOrderForest forest).find? (fun n => n.name == nm)).map
        (fun n => n.snapshot) ∧
    get_snapshot_by_name [] nm = none ∧
    (get_snapshot_by_name forest nm = none ↔
      ∀ n ∈ postOrderForest forest, ¬(n.name == nm)) := by
  refine ⟨traverseSnapshots_eq_postOrder forest, ?_, ?_, ?_⟩
  · unfold get_snapshot_by_name
    rw [traverseSnapshots_eq_postOrder]
  · simp [get_snapshot_by_name, traverseSnapshots]
  · unfold get_snapshot_by_name
    rw [traverseSnapshots_eq_postOrder]
    simp [List.find?_eq_none]

/-- C10: `_get_snapshot_by_name` and `_get_snapshot_power_state` run the same
traversal with the same first-name-match selection, so they project the same
selected node — one returning its snapshot reference, the other its
capture-time power state — and one is absent exactly when the other is. -/
theorem snapshot_lookup_agreement (forest : List SnapshotNode)
    (nm : String) :
    get_snapshot_by_name forest nm =
      ((traverseSnapshots forest).find? (fun n => n.name == nm)).map
        (fun n => n.snapshot) ∧
    get_snapshot_power_state forest nm =
      ((traverseSnapshots forest).find? (fun n => n.name == nm)).map
        (fun n => n.state) ∧
    (get_snapshot_by_name forest nm = none ↔
      get_snapshot_power_state forest nm = none) := by
  refine ⟨rfl, rfl, ?_⟩
  unfold get_snapshot_by_name get_snapshot_power_state
  cases (traverseSnapshots forest).find? (fun n => n.name == nm) <;> simp

/-- C6: reverting to a snapshot name that no node of the machine's snapshot
tree carries fails with the not-found `CuckooMachineError` and issues no
`RevertToSnapshot_Task` request (and hence no task wait), whatever the host
would have answered. -/
theorem revert_absent_snapshot (forest : List SnapshotNode)
    (nm vmname : String) (wait : WaitOutcome)
    (h : ∀ n ∈ traverseSnapshots forest, ¬(n.name == nm)) :
    revert_snapshot forest nm vmname wait =
      (Except.error (VError.notFound
        ("Snapshot " ++ nm ++ " for machine " ++ vmname ++ " not found")),
       false) := by
  have hn : get_snapshot_by_name forest nm = none := by
    unfold get_snapshot_by_name
    rw [List.find?_eq_none.mpr h]
    rfl
  unfold revert_snapshot
  rw [hn]

/-- Closed instance of `revert_absent_snapshot`: a one-node tree holding only
`clean` makes reverting to `missing` fail with the not-found error without any
task request. -/
theorem revert_absent_snapshot_witness :
    revert_snapshot [SnapshotNode.mk "clean" 1 "poweredOn" []] "missing"
      "vm1" WaitOutcome.completed =
      (Except.error (VError.notFound
        ("Snapshot " ++ "missing" ++ " for machine " ++ "vm1" ++ " not found")),
       false) := by
  refine revert_absent_snapshot _ _ _ _ ?_
  intro n hn
  simp [traverseSnapshots] at hn
  subst hn
  simp [SnapshotNode.name]

/-- C2 counterexample: not every failure during `stop` or `_delete_snapshot`
is suppressed.  On a host with no machines, `stop` raises the machine-not-found
`CuckooMachineError` to its caller; on a machine with no snapshots,
`_delete_snapshot` raises the snapshot-not-found `CuckooMachineError`.  Only
the task-wait failures are logged and swallowed. -/
theorem stop_delete_propagate_not_found :
    stop [] "cuckoo1" WaitOutcome.completed =
      Except.error (VError.notFound
        ("Machine " ++ "cuckoo1" ++ " not found on host")) ∧
    delete_snapshot [] "snap1" "vm1" WaitOutcome.completed =
      Except.error (VError.notFound
        ("Snapshot " ++ "snap1" ++ " for machine " ++ "vm1" ++ " not found")) := by
  constructor
  · simp [stop, get_virtual_machine_by_label, get_virtual_machines,
      traverseDCFolders]
  · simp [delete_snapshot, get_snapshot_by_name, traverseSnapshots]

/-- C2 amended: failures of the task wait inside `stop` (power-off) and inside
`_delete_snapshot` (snapshot removal) — task errors as well as timeouts — are
logged and suppressed, so a found machine always stops successfully and a
found snapshot always deletes successfully from the caller's point of view;
but a machine absent from the inventory makes `stop` raise the not-found
error, and a snapshot name absent from the tree makes `_delete_snapshot` raise
the not-found error. -/
theorem stop_delete_suppress_wait_failures (root : List DCFolderNode)
    (label : String) (forest : List SnapshotNode) (nm vmname : String)
    (wait : WaitOutcome) :
    (get_virtual_machine_by_label root label ≠ none →
      stop root label wait = Except.ok ()) ∧
    (get_virtual_machine_by_label root label = none →
      stop root label wait =
        Except.error (VError.notFound
          ("Machine " ++ label ++ " not found on host"))) ∧
    (get_snapshot_by_name forest nm ≠ none →
      delete_snapshot forest nm vmname wait = Except.ok ()) ∧
    (get_snapshot_by_name forest nm = none →
      delete_snapshot forest nm vmname wait =
        Except.error (VError.notFound
          ("Snapshot " ++ nm ++ " for machine " ++ vmname ++ " not found"))) := by
  unfold stop delete_snapshot
  cases h1 : get_virtual_machine_by_label root label <;>
    cases h2 : get_snapshot_by_name forest nm <;>
      cases wait <;> simp

/-- Closed instances of `stop_delete_suppress_wait_failures`: a task error
during power-off of a found machine and a timeout during removal of a found
snapshot both leave the operations successful. -/
theorem stop_delete_suppress_wait_failures_witness :
    stop [DCFolderNode.datacenter "dc1" [VMFolderNode.vm "vm1"]] "vm1"
      WaitOutcome.taskError = Except.ok () ∧
    delete_snapshot [SnapshotNode.mk "snapA" 1 "poweredOn" []] "snapA" "vm1"
      WaitOutcome.timedOut = Except.ok () ∧
    stop [] "vm2" WaitOutcome.completed =
      Except.error (VError.notFound
        ("Machine " ++ "vm2" ++ " not found on host")) ∧
    delete_snapshot [] "snapB" "vm2" WaitOutcome.completed =
      Except.error (VError.notFound
        ("Snapshot " ++ "snapB" ++ " for machine " ++ "vm2" ++ " not found")) := by
  refine ⟨?_, ?_, ?_, ?_⟩
  · refine (stop_delete_suppress_wait_failures _ "vm1" [] "x" "y"
      WaitOutcome.taskError).1 ?_
    simp [get_virtual_machine_by_label, get_virtual_machines,
      traverseDCFolders, traverseVMFolders]
  · refine (stop_delete_suppress_wait_failures [] "x"
      [SnapshotNode.mk "snapA" 1 "poweredOn" []] "snapA" "vm1"
      WaitOutcome.timedOut).2.2.1 ?_
    simp [get_snapshot_by_name, traverseSnapshots, SnapshotNode.name]
  · refine (stop_delete_suppress_wait_failures [] "vm2" [] "x" "y"
      WaitOutcome.completed).2.1 ?_
    simp [get_virtual_machine_by_label, get_virtual_machines,
      traverseDCFolders]
  · refine (stop_delete_suppress_wait_failures [] "x" [] "snapB" "vm2"
      WaitOutcome.completed).2.2.2 ?_
    simp [get_snapshot_by_name, traverseSnapshots]

theorem joinSlash_nil : joinSlash [] = "" := rfl

theorem joinSlash_cons (a : String) (l : List String) :
    joinSlash (a :: l) = a ++ "/" ++ joinSlash l := rfl

theorem joinSlash_append (l : List String) (f : String) :
    joinSlash (l ++ [f]) = joinSlash l ++ (f ++ "/") := by
  induction l with
  | nil =>
      simp only [List.nil_append, joinSlash_cons, joinSlash_nil,
        String.append_empty, String.empty_append]
  | cons a t ih =>
      simp only [List.cons_append, joinSlash_cons, ih, String.append_assoc]

theorem ancPath_append (l : List String) (d : String) :
    ancPath (l ++ [d]) = joinSlash l ++ d := by
  induction l with
  | nil => simp [ancPath, joinSlash_nil, String.empty_append]
  | cons a t ih =>
      cases t with
      | nil =>
          simp [ancPath, joinSlash_cons, joinSlash_nil,
            String.append_empty, String.append_assoc]
      | cons b t2 =>
          simp only [List.cons_append] at ih ⊢
          rw [show ancPath (a :: b :: (t2 ++ [d])) =
              a ++ "/" ++ ancPath (b :: (t2 ++ [d])) from rfl, ih]
          simp only [joinSlash_cons, String.append_assoc]

/-- The accumulated path string the source threads through
`traverseDCFolders` equals, at every datacenter leaf, the concatenation of the
leaf's ancestor names in traversal order. -/
theorem traverseDCFolders_spec :
    ∀ (nodes : List DCFolderNode) (anc : List String),
      traverseDCFolders nodes (joinSlash anc) =
        (dcLeaves nodes anc).map (fun x => (x.1, x.2.1, ancPath x.2.2))
  | [], anc => by simp [traverseDCFolders, dcLeaves]
  | DCFolderNode.folder fname children :: rest, anc => by
      have ih1 := traverseDCFolders_spec children (anc ++ [fname])
      have ih2 := traverseDCFolders_spec rest anc
      rw [joinSlash_append] at ih1
      simp only [traverseDCFolders, dcLeaves, List.map_append,
        String.append_assoc]
      rw [ih1, ih2]
  | DCFolderNode.datacenter dname vmf :: rest, anc => by
      have ih := traverseDCFolders_spec rest anc
      simp only [traverseDCFolders, dcLeaves, List.map_cons]
      rw [ih, ancPath_append]
termination_by nodes _ => sizeOf nodes

theorem flatMap_map_eq {α β γ : Type} (g : α → β) (f : β → List γ) :
    ∀ l : List α, (l.map g).flatMap f = l.flatMap (fun a => f (g a))
  | [] => by simp
  | a :: t => by simp [flatMap_map_eq g f t]

theorem traverseVMFolders_length :
    ∀ f : List VMFolderNode, (traverseVMFolders f).length = vmLeafCount f
  | [] => by simp [traverseVMFolders, vmLeafCount]
  | VMFolderNode.folder ch :: rest => by
      have ih1 := traverseVMFolders_length ch
      have ih2 := traverseVMFolders_length rest
      simp [traverseVMFolders, vmLeafCount, ih1, ih2]
  | VMFolderNode.vm v :: rest => by
      have ih := traverseVMFolders_length rest
      simp [traverseVMFolders, vmLeafCount, ih]
termination_by f => sizeOf f

theorem dcLeaves_flat_length :
    ∀ (nodes : List DCFolderNode) (anc : List String),
      ((dcLeaves nodes anc).flatMap
        (fun x => (traverseVMFolders x.2.1).map
          (fun v => (v, ancPath x.2.2)))).length = dcVMLeafCount nodes
  | [], anc => by simp [dcLeaves, dcVMLeafCount]
  | DCFolderNode.folder fname ch :: rest, anc => by
      have ih1 := dcLeaves_flat_length ch (anc ++ [fname])
      have ih2 := dcLeaves_flat_length rest anc
      simp [dcLeaves, dcVMLeafCount, ih1, ih2]
  | DCFolderNode.datacenter dname vmf :: rest, anc => by
      have ih := dcLeaves_flat_length rest anc
      simp [dcLeaves, dcVMLeafCount, ih, traverseVMFolders_length]
termination_by nodes _ => sizeOf nodes

/-- C5: the inventory traversal yields, for every datacenter of the forest in
depth-first order and for every machine leaf of that datacenter's VM folder,
one pair of the machine and the datacenter path, the recorded path being the
concatenation of the datacenter's ancestor folder names in traversal order;
and the number of yielded machines equals the number of machine leaves of the
whole hierarchy, so every leaf machine is yielded exactly once. -/
theorem inventory_walk_complete (root : List DCFolderNode) :
    get_virtual_machines root =
      (dcLeaves root []).flatMap
        (fun x => (traverseVMFolders x.2.1).map
          (fun v => (v, ancPath x.2.2))) ∧
    (get_virtual_machines root).length = dcVMLeafCount root := by
  have h : get_virtual_machines root =
      (dcLeaves root []).flatMap
        (fun x => (traverseVMFolders x.2.1).map
          (fun v => (v, ancPath x.2.2))) := by
    unfold get_virtual_machines
    have h0 : ("" : String) = joinSlash [] := rfl
    rw [h0, traverseDCFolders_spec root [], flatMap_map_eq]
  exact ⟨h, by rw [h]; exact dcLeaves_flat_length root []⟩

/-- C7 amended: the resolver prefers the first file of kind `snapshotMemory`
or `suspendMemory` whose key equals the memory key; it falls back to the first
`snapshotData` file matching the data key not only when no memory-kind file
matches but also when the first matching memory-kind file has an empty name
(the source's `if not filespec` treats the empty string like `None`); and it
fails with the not-found `CuckooMachineError` exactly when neither search
produces a file with a nonempty name. -/
theorem resolve_filespec_eq_alt (files : List LayoutFile)
    (memorykey datakey : Option Int) :
    resolve_filespec files memorykey datakey =
      resolve_filespec_alt files memorykey datakey := by
  simp only [resolve_filespec, resolve_filespec_alt]
  cases h1 : (files.find? (fun f => memorykey == some f.key &&
      (f.ftype == "snapshotMemory" || f.ftype == "suspendMemory"))).map
      LayoutFile.name with
  | none =>
      cases h2 : (files.find? (fun f => datakey == some f.key &&
          f.ftype == "snapshotData")).map LayoutFile.name with
      | none => simp [falsyStr, usableName]
      | some t =>
          by_cases ht : t = ""
          · subst ht; simp [falsyStr, usableName]
          · simp [falsyStr, usableName, ht]
  | some s =>
      by_cases hs : s = ""
      · subst hs
        cases h2 : (files.find? (fun f => datakey == some f.key &&
            f.ftype == "snapshotData")).map LayoutFile.name with
        | none => simp [falsyStr, usableName]
        | some t =>
            by_cases ht : t = ""
            · subst ht; simp [falsyStr, usableName]
            · simp [falsyStr, usableName, ht]
      · simp [falsyStr, usableName, hs]

/-- C7 counterexample: with the file layout holding exactly one file — kind
`snapshotMemory`, key equal to the memory key, empty name — a memory-kind file
matching the memory key exists, yet the resolver fails with the not-found
error (and hence would also fall back to the data search despite the memory
match), against the claim that it fails only when neither kind of file
exists. -/
theorem resolve_filespec_empty_name_cex :
    ([LayoutFile.mk 1 "snapshotMemory" ""].any
      (fun f => (some (1 : Int) == some f.key) &&
        (f.ftype == "snapshotMemory" || f.ftype == "suspendMemory")) = true) ∧
    resolve_filespec [LayoutFile.mk 1 "snapshotMemory" ""] (some 1) (some 2) =
      Except.error (VError.notFound "Could not find memory snapshot file") := by
  exact ⟨rfl, rfl⟩

/-- C3 amended: the parse maps `[datastore1] path/to/file.vmsn` to the
datastore `datastore1` and the path `path/to/file.vmsn`; on any input the
fixed two-group pattern does not match, `re.match` returns `None` and the
immediate `.groups()` call raises an uncaught `AttributeError` — a generic
Python error, not a machinery-level format error. -/
theorem parse_filespec_behavior (s : String) :
    parse_filespec "[datastore1] path/to/file.vmsn" =
      some ("datastore1", "path/to/file.vmsn") ∧
    (parse_filespec s = none →
      download_parse s = Except.error VError.pyAttributeError ∧
      isCuckooMachineError VError.pyAttributeError = false) := by
  constructor
  · rfl
  · intro h
    unfold download_parse
    rw [h]
    exact ⟨rfl, rfl⟩

/-- Closed instance of `parse_filespec_behavior`: an input without a bracketed
datastore makes the parse step fail with the uncaught `AttributeError`. -/
theorem parse_filespec_behavior_witness :
    download_parse "path/to/file.vmsn" =
      Except.error VError.pyAttributeError ∧
    isCuckooMachineError VError.pyAttributeError = false :=
  (parse_filespec_behavior "path/to/file.vmsn").2 rfl

/-- C3 counterexample: on an input without a bracketed datastore the download
parse step fails with the uncaught Python `AttributeError` (from calling
`.groups()` on `None`), which is not a `CuckooMachineError`, so the failure is
not of the machinery format-error kind the claim states. -/
theorem parse_no_bracket_not_machine_error_cex :
    download_parse "datastore1 path.vmsn" =
      Except.error VError.pyAttributeError ∧
    isCuckooMachineError VError.pyAttributeError = false :=
  ⟨rfl, rfl⟩

/-- C8: when the machine is found and snapshot creation succeeded, a failing
download step makes `dump_memory` stop right there — the download error is the
operation's result and the deletion step is never attempted; and the deletion
step is attempted exactly when the machine was found and both the creation and
the download succeeded. -/
theorem dump_memory_cleanup_order (root : List DCFolderNode) (label : String)
    (createR downloadR deleteR : Except VError Unit) (e : VError) :
    (get_virtual_machine_by_label root label ≠ none →
      createR = Except.ok () → downloadR = Except.error e →
      dump_memory root label createR downloadR deleteR =
        (Except.error e, [DumpStep.createSnap, DumpStep.downloadSnap])) ∧
    (DumpStep.deleteSnap ∈ (dump_memory root label createR downloadR deleteR).2 ↔
      get_virtual_machine_by_label root label ≠ none ∧
      createR = Except.ok () ∧ downloadR = Except.ok ()) := by
  constructor
  · intro hvm hc hd
    subst hc
    subst hd
    unfold dump_memory
    cases h : get_virtual_machine_by_label root label with
    | none => exact absurd h hvm
    | some p => rfl
  · cases h : get_virtual_machine_by_label root label with
    | none => unfold dump_memory; rw [h]; simp
    | some p =>
        cases createR with
        | error e1 => unfold dump_memory; rw [h]; simp [h]
        | ok u =>
            cases u
            cases downloadR with
            | error e2 => unfold dump_memory; rw [h]; simp [h]
            | ok v =>
                cases v
                cases deleteR with
                | error e3 => unfold dump_memory; rw [h]; simp [h]
                | ok w => cases w; unfold dump_memory; rw [h]; simp [h]

/-- Closed instance of `dump_memory_cleanup_order`: on a one-datacenter
inventory holding `vm1`, a successful creation followed by a failing download
yields the download error with only the creation and download steps
attempted. -/
theorem dump_memory_cleanup_order_witness :
    dump_memory [DCFolderNode.datacenter "dc1" [VMFolderNode.vm "vm1"]] "vm1"
      (Except.ok ())
      (Except.error (VError.downloadFailed "Error downloading memory dump"))
      (Except.ok ()) =
      (Except.error (VError.downloadFailed "Error downloading memory dump"),
       [DumpStep.createSnap, DumpStep.downloadSnap]) := by
  refine (dump_memory_cleanup_order _ _ _ _ _ _).1 ?_ rfl rfl
  simp [get_virtual_machine_by_label, get_virtual_machines,
    traverseDCFolders, traverseVMFolders]

/-- C9: `response.raise_for_status()` runs before the destination is opened,
so on an HTTP error status (4xx/5xx) the download fails with the destination's
prior content untouched; the destination content can differ from its prior
content only when the status check passed, and then it is exactly the
concatenation of the chunks the stream delivered — a partially written file
can only come from a failure after streaming began. -/
theorem download_status_guard (resp : HttpResponse) (dest : List Nat) :
    (400 ≤ resp.statusCode → resp.statusCode < 600 →
      download_stream resp dest =
        (Except.error (VError.downloadFailed "Error downloading memory dump"),
         dest)) ∧
    ((download_stream resp dest).2 ≠ dest →
      ¬(400 ≤ resp.statusCode ∧ resp.statusCode < 600)) ∧
    (¬(400 ≤ resp.statusCode ∧ resp.statusCode < 600) →
      (download_stream resp dest).2 =
        resp.chunks.foldl (fun acc c => acc ++ c) []) := by
  by_cases h : 400 ≤ resp.statusCode ∧ resp.statusCode < 600
  · refine ⟨fun _ _ => by simp [download_stream, h], ?_, fun hc => absurd h hc⟩
    intro hne
    exact absurd (by simp [download_stream, h]) hne
  · refine ⟨fun h1 h2 => absurd ⟨h1, h2⟩ h, fun _ => h, ?_⟩
    intro _
    by_cases ht : resp.transportFails
    · simp [download_stream, h, ht]
    · simp [download_stream, h, ht]

/-- Closed instances of `download_status_guard`: a 404 leaves the prior
destination byte `9` in place; with a 200 and a transport failure after two
chunks, the destination holds exactly the delivered bytes. -/
theorem download_status_guard_witness :
    download_stream ⟨404, [[1, 2]], false⟩ [9] =
      (Except.error (VError.downloadFailed "Error downloading memory dump"),
       [9]) ∧
    (download_stream ⟨200, [[1, 2], [3]], true⟩ [9]).2 = [1, 2, 3] ∧
    ¬(400 ≤ (200 : Nat) ∧ (200 : Nat) < 600) := by
  refine ⟨?_, ?_, ?_⟩
  · exact (download_status_guard ⟨404, [[1, 2]], false⟩ [9]).1
      (by norm_num) (by norm_num)
  · have h := (download_status_guard ⟨200, [[1, 2], [3]], true⟩ [9]).2.2
      (by norm_num)
    simpa using h
  · refine (download_status_guard ⟨200, [[1, 2], [3]], true⟩ [9]).2.1 ?_
    simp [download_stream]

end VSphereM
